import Mathlib

/-!
Verification of the memory-keeper pipeline (`blog_generator.py`, `app.py`).

The Python modules are shallowly embedded below.  External collaborators
(the generative-text service, the PDF renderers, the filesystem clock) are
modelled as explicit parameters:

* `Env` packages the process-wide generative-service configuration
  (`GENEMINI_AVAILABLE`) together with the external service itself, given as
  a function `String → Except String String` whose `error` case models a
  raised exception anywhere inside the guarded call
  (`genai.GenerativeModel`, `generate_content`, `response.text`).
* Stateful functions return the new state explicitly; Python `dict`s are
  embedded as association lists in insertion order (Python 3.7+ dicts
  iterate in insertion order, and keys are unique).
* `polish_story` additionally returns the number of external-service calls
  it performed, so that "no external call" claims are statable.
* `pyStrip` models Python `str.strip()` (ASCII whitespace; the further
  Unicode whitespace stripped by CPython does not occur in these inputs).
-/

set_option maxRecDepth 100000

/-- The ASCII whitespace characters recognised by Python `str.strip()` and
`str.splitlines()`. -/
def isSpaceChar (c : Char) : Bool :=
  c == ' ' || c == '\t' || c == '\n' || c == '\r' || c == '\x0b' || c == '\x0c'

/-- Python `s.strip()`: remove leading and trailing whitespace. -/
def pyStrip (s : String) : String :=
  ⟨((s.toList.dropWhile isSpaceChar).reverse.dropWhile isSpaceChar).reverse⟩

/-- Process-wide configuration and the external generative-text service, as
set up by the module-level `try: import google.generativeai ...` block of
`blog_generator.py`. -/
structure Env where
  geminiAvailable : Bool
  generate : String → Except String String

/-- The instruction built by `polish_story` (lines 36-41),
embedding the question and the answer verbatim. -/
def mkPrompt (question answer : String) : String :=
  "\n    Turn the following memory into a warm, family-friendly story.\n    Question: "
    ++ question
    ++ "\n    Answer: "
    ++ answer
    ++ "\n    Story:\n    "

/-- Model of `polish_story(question, answer, model=None)` (blog_generator.py
lines 33-51).  The second component counts calls into the external service.
The guarded branch is taken only when `model is None and
GENEMINI_AVAILABLE`; any exception from it yields the raw answer. -/
def polish_story (env : Env) (question answer : String)
    (model : Option Unit) : String × Nat :=
  if pyStrip answer = "" then ("", 0)
  else
    match model, env.geminiAvailable with
    | none, true =>
      match env.generate (mkPrompt question answer) with
      | Except.ok t => (pyStrip t, 1)
      | Except.error _ => (answer, 1)
    | _, _ => (answer, 0)

/-- Python `"".join(l)`: concatenation of a list of strings. -/
def joinStrings : List String → String
  | [] => ""
  | s :: rest => s ++ joinStrings rest

/-- One body section of the blog (blog_generator.py line 89). -/
def sectionHtml (q polished : String) : String :=
  "<div class=\x27container\x27><h3>" ++ q ++ "</h3><p>" ++ polished ++ "</p></div>"

/-- The table-of-contents string (blog_generator.py line 57): the joined
items over the answered prompts, in record order. -/
def tocItems (answers : List (String × String)) : String :=
  joinStrings (answers.filterMap fun qa =>
    if pyStrip qa.2 != "" then some ("<li>" ++ qa.1 ++ "</li>") else none)

/-- The fixed HTML head/cover of the blog (blog_generator.py lines 59-84),
with the date stamp and table of contents interpolated. -/
def blogHeader (dateStr toc : String) : String :=
  "\n<html>\n<head>\n<title>Family Memories</title>\n<style>\n"
    ++ "body \x7b font-family: Georgia, serif; background: #f7f3f0; margin: 40px; \x7d\n"
    ++ "h1 \x7b color: #5a3e36; text-align: center; \x7d\n"
    ++ "h2 \x7b color: #4b3832; text-align: center; margin-top: 10px; \x7d\n"
    ++ "h3 \x7b color: #4b3832; margin-top: 30px; \x7d\n"
    ++ "p \x7b font-size: 18px; line-height: 1.6; color: #333; \x7d\n"
    ++ ".date \x7b color: gray; font-size: 14px; text-align: center; margin-bottom: 20px; \x7d\n"
    ++ "hr \x7b border: 1px solid #d4c6b8; \x7d\n"
    ++ ".container \x7b background: #fff; padding: 30px; border-radius: 10px; \n"
    ++ "             box-shadow: 0px 0px 15px rgba(0,0,0,0.1); margin-bottom: 20px; \x7d\n"
    ++ "li \x7b margin-bottom: 5px; \x7d\n"
    ++ "</style>\n</head>\n<body>\n<div class=\"container\">\n"
    ++ "<h1>💖 Family Memories</h1>\n<h2>"
    ++ dateStr
    ++ "</h2>\n<hr>\n<h3>Table of Contents</h3>\n<ul>"
    ++ toc
    ++ "</ul>\n<hr>\n"

/-- Model of `generate_blog(answers)` (blog_generator.py lines 54-92).  The date
stamp `datetime.now().strftime("%B %d, %Y")` is passed in as `dateStr`; the
body loop `for q, a in answers.items(): if a.strip(): ...` is the fold. -/
def generate_blog (env : Env) (dateStr : String)
    (answers : List (String × String)) : String :=
  let blog := blogHeader dateStr (tocItems answers)
  let blog := answers.foldl (fun blog qa =>
    if pyStrip qa.2 != "" then
      blog ++ sectionHtml qa.1 (polish_story env qa.1 qa.2 none).1
    else blog) blog
  blog ++ "</body></html>"

/-- The answered prompts, in record iteration order: exactly those whose
answer is non-empty after stripping whitespace (spec-side description). -/
def answeredPrompts (answers : List (String × String)) : List String :=
  (answers.filter fun qa => pyStrip qa.2 != "").map Prod.fst

/-- Whether the pattern occurs at the head (character-list level). -/
def hasPrefixCL : List Char → List Char → Bool
  | [], _ => true
  | _ :: _, [] => false
  | p :: ps, c :: cs => p == c && hasPrefixCL ps cs

/-- Character-list level substring occurrence. -/
def containsCL (pat : List Char) : List Char → Bool
  | [] => hasPrefixCL pat []
  | c :: cs => hasPrefixCL pat (c :: cs) || containsCL pat cs

/-- Whether `pat` occurs as a contiguous substring of `s`. -/
def strContainsSub (s pat : String) : Bool :=
  containsCL pat.toList s.toList

/-- Python `s.splitlines()` restricted to the line breaks that can occur in
these strings: `\r\n`, `\n`, `\r`; no trailing empty line is produced. -/
def splitlinesCL (acc : List Char) : List Char → List (List Char)
  | [] => if acc.isEmpty then [] else [acc.reverse]
  | '\r' :: '\n' :: rest => acc.reverse :: splitlinesCL [] rest
  | '\n' :: rest => acc.reverse :: splitlinesCL [] rest
  | '\r' :: rest => acc.reverse :: splitlinesCL [] rest
  | c :: rest => splitlinesCL (c :: acc) rest

/-- Python `s.splitlines()` as a list of strings. -/
def splitlines (s : String) : List String :=
  (splitlinesCL [] s.toList).map fun l => ⟨l⟩

/-- Python `s[:50]` (the preview slice). -/
def pySlice50 (s : String) : String :=
  ⟨s.toList.take 50⟩

/-- A timestamp as delivered by `datetime.now()`; the embedding only needs
the calendar fields that the two format calls read. -/
structure DateTime where
  year : Nat
  month : Nat
  day : Nat
  hour : Nat
  minute : Nat
  second : Nat
  microsecond : Nat
deriving DecidableEq

/-- Zero-pad to two digits (`%m`, `%d`, `%H`, `%M` and the time fields of
`isoformat`). -/
def pad2 (n : Nat) : String :=
  if n < 10 then "0" ++ toString n else toString n

/-- Zero-pad to four digits (`%Y` and the year field of `isoformat`). -/
def pad4 (n : Nat) : String :=
  if n < 10 then "000" ++ toString n
  else if n < 100 then "00" ++ toString n
  else if n < 1000 then "0" ++ toString n
  else toString n

/-- Zero-pad to six digits (the microsecond field of `isoformat`). -/
def pad6 (n : Nat) : String :=
  if n < 10 then "00000" ++ toString n
  else if n < 100 then "0000" ++ toString n
  else if n < 1000 then "000" ++ toString n
  else if n < 10000 then "00" ++ toString n
  else if n < 100000 then "0" ++ toString n
  else toString n

/-- Model of `t.strftime("%Y%m%d_%H%M")` (blog_generator.py line 100). -/
def strftimeYmdHM (t : DateTime) : String :=
  pad4 t.year ++ pad2 t.month ++ pad2 t.day ++ "_" ++ pad2 t.hour ++ pad2 t.minute

/-- Model of `t.isoformat()` (blog_generator.py line 131): ISO-8601
`YYYY-MM-DDTHH:MM:SS[.ffffff]`, the fraction omitted when the microsecond
field is zero. -/
def isoformat (t : DateTime) : String :=
  pad4 t.year ++ "-" ++ pad2 t.month ++ "-" ++ pad2 t.day ++ "T"
    ++ pad2 t.hour ++ ":" ++ pad2 t.minute ++ ":" ++ pad2 t.second
    ++ (if t.microsecond = 0 then "" else "." ++ pad6 t.microsecond)

/-- A PDF file on disk: either the output of the primary renderer for the given
HTML, or the ReportLab fallback holding the HTML source as plain text
lines. -/
inductive PdfFile where
  | primary (content : String)
  | fallback (lines : List String)
deriving DecidableEq

/-- One element of the `pdf_log.json` array (blog_generator.py lines
129-133). -/
structure LogEntry where
  filename : String
  generated_at : String
  preview : String
deriving DecidableEq

/-- The on-disk state of the `pdf_log.json` file: absent, present but not
valid JSON, or a parsed JSON array of entries. -/
inductive LogFileState where
  | absent
  | corrupt
  | valid (entries : List LogEntry)
deriving DecidableEq

/-- The entries `json.load` yields from the log file, with a missing or
unparseable file read as the empty list (blog_generator.py lines
121-127). -/
def logEntries : LogFileState → List LogEntry
  | LogFileState.absent => []
  | LogFileState.corrupt => []
  | LogFileState.valid entries => entries

/-- The filesystem state touched by `export_pdf`: the PDF files (an
association list, most recent write first) and the log file. -/
structure ExportState where
  pdfFiles : List (String × PdfFile)
  logFile : LogFileState
deriving DecidableEq

/-- Write (or overwrite) a file. -/
def setFile (files : List (String × PdfFile)) (path : String)
    (c : PdfFile) : List (String × PdfFile) :=
  (path, c) :: files

/-- Read a file: the most recent write to the path wins. -/
def getFile (files : List (String × PdfFile)) (path : String) :
    Option PdfFile :=
  (files.find? fun f => f.1 == path).map Prod.snd

/-- The primary HTML-to-PDF renderer (`HTML(string=...).write_pdf(...)`),
an external collaborator whose `error` case models a raised exception. -/
structure RenderEnv where
  render : String → Except String String

/-- Model of `export_pdf(html_content, directory)` (blog_generator.py lines
95-137).  `t1` is the `datetime.now()` read for the filename (line 100),
`t2` the one read for the log entry (line 131).  Returns the file path
and the new filesystem state. -/
def export_pdf (env : RenderEnv) (t1 t2 : DateTime) (html_content : String)
    (directory : String) (st : ExportState) : String × ExportState :=
  let timestamp := strftimeYmdHM t1
  let filename := "memory_blog_" ++ timestamp ++ ".pdf"
  let filepath := directory ++ "/" ++ filename
  let files :=
    match env.render html_content with
    | Except.ok pdf => setFile st.pdfFiles filepath (PdfFile.primary pdf)
    | Except.error _ =>
      setFile st.pdfFiles filepath (PdfFile.fallback (splitlines html_content))
  let log := logEntries st.logFile
  let preview := pySlice50 (joinStrings (splitlines html_content))
  let log := log ++ [{ filename := filename,
                       generated_at := isoformat t2,
                       preview := preview }]
  (filepath, { pdfFiles := files, logFile := LogFileState.valid log })

/-- The inputs of one `export_pdf` call (renderer environment, the two
clock reads, and the HTML document). -/
structure ExportCall where
  env : RenderEnv
  t1 : DateTime
  t2 : DateTime
  html : String

/-- The log entry a given call appends. -/
def exportEntry (c : ExportCall) : LogEntry :=
  { filename := "memory_blog_" ++ strftimeYmdHM c.t1 ++ ".pdf",
    generated_at := isoformat c.t2,
    preview := pySlice50 (joinStrings (splitlines c.html)) }

/-- A sequence of `export_pdf` calls against the same directory. -/
def exportRun (directory : String) (calls : List ExportCall)
    (st : ExportState) : ExportState :=
  calls.foldl (fun s c => (export_pdf c.env c.t1 c.t2 c.html directory s).2) st

/-- Two concrete export calls with distinct minute timestamps, used to
exercise a run of exports. -/
def demoCalls : List ExportCall :=
  [⟨⟨fun _ => Except.error "no weasyprint"⟩, ⟨2025, 10, 12, 12, 0, 5, 0⟩,
    ⟨2025, 10, 12, 12, 0, 6, 0⟩, "<p>alpha</p>"⟩,
   ⟨⟨fun _ => Except.ok "PDFBYTES"⟩, ⟨2025, 10, 12, 12, 1, 5, 0⟩,
    ⟨2025, 10, 12, 12, 1, 6, 0⟩, "<p>beta</p>"⟩]

/-- The on-disk state of the answers file `data/memories.json`. -/
inductive DataFileState where
  | absent
  | corrupt
  | valid (record : List (String × String))
deriving DecidableEq

/-- The Answer Store load at the top of `app.py` (lines 32-36): if the
file exists it is fed to `json.load`, whose failure on a file that is not
valid JSON is an uncaught `json.JSONDecodeError` (the `error` case);
otherwise the record starts empty. -/
def load_answers : DataFileState → Except Unit (List (String × String))
  | DataFileState.absent => Except.ok []
  | DataFileState.corrupt => Except.error ()
  | DataFileState.valid record => Except.ok record

/-! ## General lemmas -/

/-- Two strings with the same character data are equal. -/
theorem string_data_inj {a b : String} (h : a.data = b.data) : a = b := by
  cases a; cases b; cases h; rfl

/-- A guarded `filterMap` is a `map` over a `filter`. -/
theorem filterMap_guard {α β : Type} (p : α → Bool) (g : α → β) (l : List α) :
    (l.filterMap fun x => if p x then some (g x) else none) = (l.filter p).map g := by
  induction l with
  | nil => rfl
  | cons x xs ih => cases h : p x <;> simp [List.filterMap_cons, List.filter_cons, h, ih]

/-- A fold that conditionally appends a rendered item is the initial string
followed by the rendered selected items. -/
theorem foldl_guard_append {α : Type} (p : α → Bool) (f : α → String)
    (l : List α) (init : String) :
    l.foldl (fun b x => if p x then b ++ f x else b) init
      = init ++ joinStrings ((l.filter p).map f) := by
  induction l generalizing init with
  | nil => simp [joinStrings, String.append_empty]
  | cons x xs ih =>
    cases h : p x <;>
      simp [List.foldl_cons, List.filter_cons, h, ih, joinStrings, String.append_assoc]

/-- In a record with distinct keys, a key determines its value. -/
theorem key_unique {l : List (String × String)} {q a b : String}
    (h : (l.map Prod.fst).Nodup) (ha : (q, a) ∈ l) (hb : (q, b) ∈ l) : a = b := by
  induction l with
  | nil => cases ha
  | cons x xs ih =>
    rw [List.map_cons, List.nodup_cons] at h
    rcases List.mem_cons.mp ha with ha1 | ha2 <;>
      rcases List.mem_cons.mp hb with hb1 | hb2
    · rw [← ha1] at hb1
      exact ((Prod.mk.injEq q a q b).mp hb1.symm).2
    · exfalso
      apply h.1
      rw [← ha1]
      exact (show q ∈ xs.map Prod.fst from List.mem_map_of_mem Prod.fst hb2)
    · exfalso
      apply h.1
      rw [← hb1]
      exact (show q ∈ xs.map Prod.fst from List.mem_map_of_mem Prod.fst ha2)
    · exact ih h.2 ha2 hb2

/-- Reading back the path just written returns the written file. -/
theorem getFile_setFile (files : List (String × PdfFile)) (path : String)
    (c : PdfFile) : getFile (setFile files path c) path = some c := by
  simp [getFile, setFile]

/-- The new log file written by `export_pdf` is always the old entries (a
missing or corrupt log reading as empty) plus the one new entry. -/
theorem export_pdf_logFile (env : RenderEnv) (t1 t2 : DateTime)
    (html directory : String) (st : ExportState) :
    (export_pdf env t1 t2 html directory st).2.logFile
      = LogFileState.valid (logEntries st.logFile
          ++ [⟨"memory_blog_" ++ strftimeYmdHM t1 ++ ".pdf", isoformat t2,
               pySlice50 (joinStrings (splitlines html))⟩]) := by
  cases h : env.render html <;> simp [export_pdf, h]

/-- Log entries accumulated over a run of exports. -/
theorem exportRun_logEntries_eq (directory : String) (calls : List ExportCall)
    (st : ExportState) :
    logEntries (exportRun directory calls st).logFile
      = logEntries st.logFile ++ calls.map exportEntry := by
  induction calls generalizing st with
  | nil => simp [exportRun]
  | cons c cs ih =>
    have hstep : exportRun directory (c :: cs) st
        = exportRun directory cs (export_pdf c.env c.t1 c.t2 c.html directory st).2 := rfl
    rw [hstep, ih, export_pdf_logFile]
    simp [logEntries, exportEntry]

/-- The timestamp part of an export filename determines the filename. -/
theorem filename_inj {x y : String}
    (h : "memory_blog_" ++ x ++ ".pdf" = "memory_blog_" ++ y ++ ".pdf") :
    x = y := by
  have h' := congrArg String.data h
  simp only [String.data_append, List.append_assoc] at h'
  have h2 := List.append_cancel_left h'
  have h3 := List.append_cancel_right h2
  exact string_data_inj h3

/-- Unfolding of `generate_blog`: header with table of contents, one section
per answered prompt, closing tags. -/
theorem generate_blog_eq (env : Env) (dateStr : String)
    (answers : List (String × String)) :
    generate_blog env dateStr answers
      = blogHeader dateStr (tocItems answers)
        ++ joinStrings ((answers.filter fun qa => pyStrip qa.2 != "").map fun qa =>
             sectionHtml qa.1 (polish_story env qa.1 qa.2 none).1)
        ++ "</body></html>" := by
  show (answers.foldl (fun blog qa =>
      if pyStrip qa.2 != "" then
        blog ++ sectionHtml qa.1 (polish_story env qa.1 qa.2 none).1
      else blog) (blogHeader dateStr (tocItems answers))) ++ "</body></html>" = _
  rw [foldl_guard_append]

/-- A service that fails on every input makes `polish_story` behave exactly
as when the service is not configured. -/
theorem polish_story_failing_eq (env : Env) (q a : String) (m : Option Unit)
    (hAll : ∀ s, ∃ er, env.generate s = Except.error er) :
    (polish_story env q a m).1 = (polish_story ⟨false, env.generate⟩ q a m).1 := by
  by_cases hws : pyStrip a = ""
  · simp [polish_story, hws]
  · obtain ⟨er, her⟩ := hAll (mkPrompt q a)
    cases m with
    | some u => simp [polish_story, hws]
    | none =>
      cases hg : env.geminiAvailable <;> simp [polish_story, hws, hg, her]

/-- C3: for every prompt and non-whitespace answer, if the external
generative-text call raises, `polish_story` catches the exception and
returns the original answer unchanged; under a service failing on every
call, `generate_blog` still completes and equals the blog assembled from
the raw answers (the unconfigured-service blog). -/
theorem polish_story_error_recovery (env : Env)
    (question answer dateStr : String) (answers : List (String × String))
    (model : Option Unit) (e : String)
    (hne : pyStrip answer ≠ "")
    (hfail : env.generate (mkPrompt question answer) = Except.error e)
    (hAll : ∀ s, ∃ er, env.generate s = Except.error er) :
    (polish_story env question answer model).1 = answer
    ∧ generate_blog env dateStr answers
        = generate_blog ⟨false, env.generate⟩ dateStr answers := by
  constructor
  · cases model with
    | some u => simp [polish_story, hne]
    | none => cases hg : env.geminiAvailable <;> simp [polish_story, hne, hg, hfail]
  · rw [generate_blog_eq, generate_blog_eq]
    have hmap : ((answers.filter fun qa => pyStrip qa.2 != "").map fun qa =>
          sectionHtml qa.1 (polish_story env qa.1 qa.2 none).1)
        = ((answers.filter fun qa => pyStrip qa.2 != "").map fun qa =>
          sectionHtml qa.1 (polish_story ⟨false, env.generate⟩ qa.1 qa.2 none).1) := by
      apply List.map_congr_left
      intro qa hqa
      rw [polish_story_failing_eq env qa.1 qa.2 none hAll]
    rw [hmap]

/-- C3 witness: a concrete always-failing service, a concrete record. -/
theorem polish_story_error_recovery_witness :
    (polish_story ⟨true, fun _ => Except.error "quota"⟩ "Q" "A" none).1 = "A"
    ∧ generate_blog ⟨true, fun _ => Except.error "quota"⟩ "May 01, 2025" [("Q", "A")]
        = generate_blog ⟨false, fun _ => Except.error "quota"⟩ "May 01, 2025" [("Q", "A")] :=
  polish_story_error_recovery ⟨true, fun _ => Except.error "quota"⟩ "Q" "A"
    "May 01, 2025" [("Q", "A")] none "quota" (by decide) rfl
    (fun s => ⟨"quota", rfl⟩)

/-- C4 counterexample: when the answers file exists but is not valid JSON,
the load at the top of app.py does not start empty, it raises (an uncaught
`json.JSONDecodeError`). -/
theorem load_answers_corrupt_raises :
    load_answers DataFileState.corrupt = Except.error () := rfl

/-- C4 amended: load returns the saved record when the file is valid JSON,
the empty record when no file exists, and raises a ParseError when the file
exists but is not valid JSON. -/
theorem load_answers_spec (record : List (String × String)) :
    load_answers DataFileState.absent = Except.ok []
    ∧ load_answers (DataFileState.valid record) = Except.ok record
    ∧ load_answers DataFileState.corrupt = Except.error () :=
  ⟨rfl, rfl, rfl⟩

/-- C5 counterexample: the service is configured and would return a polished
story, the answer is non-whitespace, and the caller supplies a model handle,
yet `polish_story` performs zero external calls and returns the raw answer:
the caller-supplied handle is never used for submission. -/
theorem polish_story_supplied_handle_ignored :
    polish_story ⟨true, fun _ => Except.ok "POLISHED STORY"⟩ "Q" "A" (some ())
      = ("A", 0) := by decide

/-- C5 amended: when a handle is supplied, `polish_story` makes no external
call and returns the answer unchanged; the built instruction is submitted
through a default handle made from process-wide configuration only when no
handle is supplied and the service is configured. -/
theorem polish_story_handle_semantics (env : Env) (question answer : String)
    (h : Unit) (hne : pyStrip answer ≠ "") (hg : env.geminiAvailable = true) :
    polish_story env question answer (some h) = (answer, 0)
    ∧ polish_story env question answer none
        = (match env.generate (mkPrompt question answer) with
           | Except.ok t => (pyStrip t, 1)
           | Except.error _ => (answer, 1)) := by
  constructor
  · simp [polish_story, hne]
  · cases hr : env.generate (mkPrompt question answer) <;>
      simp [polish_story, hne, hg, hr]

/-- C5 amended witness. -/
theorem polish_story_handle_semantics_witness :
    polish_story ⟨true, fun _ => Except.ok " polished "⟩ "Q" "A" (some ())
      = ("A", 0)
    ∧ polish_story ⟨true, fun _ => Except.ok " polished "⟩ "Q" "A" none
      = ("polished", 1) :=
  polish_story_handle_semantics ⟨true, fun _ => Except.ok " polished "⟩
    "Q" "A" () (by decide) rfl

/-- C6: for every prompt, a whitespace-only answer makes `polish_story`
return the empty string at once, with no external call. -/
theorem polish_story_empty_no_call (env : Env) (question answer : String)
    (model : Option Unit) (hws : pyStrip answer = "") :
    polish_story env question answer model = ("", 0) := by
  simp [polish_story, hws]

/-- C6 witness. -/
theorem polish_story_empty_no_call_witness :
    pyStrip "   " = ""
    ∧ polish_story ⟨true, fun _ => Except.ok "S"⟩ "Q" "   " none = ("", 0) :=
  ⟨by decide,
   polish_story_empty_no_call ⟨true, fun _ => Except.ok "S"⟩ "Q" "   " none
     (by decide)⟩

/-- C10: a caller-supplied handle forces deterministic pass-through (raw
answer, zero external calls); a call into the external service happens only
with no handle and the service configured at startup, and then it is exactly
one call. -/
theorem polish_story_passthrough_on_handle (env : Env)
    (question answer : String) (h : Unit) (m : Option Unit)
    (hne : pyStrip answer ≠ "") :
    polish_story env question answer (some h) = (answer, 0)
    ∧ ((polish_story env question answer m).2 = 0
       ∨ (m = none ∧ env.geminiAvailable = true
          ∧ (polish_story env question answer m).2 = 1)) := by
  constructor
  · simp [polish_story, hne]
  · cases m with
    | some u => left; simp [polish_story, hne]
    | none =>
      cases hg : env.geminiAvailable
      · left; simp [polish_story, hne, hg]
      · right
        refine ⟨rfl, rfl, ?_⟩
        cases hr : env.generate (mkPrompt question answer) <;>
          simp [polish_story, hne, hg, hr]

/-- C10 witness. -/
theorem polish_story_passthrough_on_handle_witness :
    polish_story ⟨true, fun _ => Except.ok "S"⟩ "Q" "A" (some ()) = ("A", 0)
    ∧ ((polish_story ⟨true, fun _ => Except.ok "S"⟩ "Q" "A" none).2 = 0
       ∨ ((none : Option Unit) = none
          ∧ (⟨true, fun _ => Except.ok "S"⟩ : Env).geminiAvailable = true
          ∧ (polish_story ⟨true, fun _ => Except.ok "S"⟩ "Q" "A" none).2 = 1)) :=
  polish_story_passthrough_on_handle ⟨true, fun _ => Except.ok "S"⟩ "Q" "A"
    () none (by decide)

/-- C1: the table of contents lists exactly the prompts whose answers are
non-empty after stripping, in record order; the body holds exactly one
section per such prompt with its (possibly polished) answer, in the same
order; a prompt with a whitespace-only answer is listed nowhere; and on
the record Q1 ↦ "  ", Q2 ↦ "I loved summers at the lake." the document has
exactly one section, titled Q2, and Q1 occurs nowhere in the document. -/
theorem generate_blog_toc_sections (env : Env) (dateStr : String)
    (answers : List (String × String)) (q a : String)
    (hnd : (answers.map Prod.fst).Nodup) (hqa : (q, a) ∈ answers)
    (hws : pyStrip a = "") :
    tocItems answers
      = joinStrings ((answeredPrompts answers).map fun t => "<li>" ++ t ++ "</li>")
    ∧ generate_blog env dateStr answers
      = blogHeader dateStr (tocItems answers)
        ++ joinStrings ((answers.filter fun qa => pyStrip qa.2 != "").map fun qa =>
             sectionHtml qa.1 (polish_story env qa.1 qa.2 none).1)
        ++ "</body></html>"
    ∧ ((answers.filter fun qa => pyStrip qa.2 != "").map fun qa => qa.1)
      = answeredPrompts answers
    ∧ (answeredPrompts answers).Nodup
    ∧ q ∉ answeredPrompts answers
    ∧ generate_blog ⟨false, fun _ => Except.error ""⟩ "October 12, 2025"
        [("Q1", "  "), ("Q2", "I loved summers at the lake.")]
      = blogHeader "October 12, 2025" "<li>Q2</li>"
          ++ sectionHtml "Q2" "I loved summers at the lake."
          ++ "</body></html>"
    ∧ strContainsSub
        (generate_blog ⟨false, fun _ => Except.error ""⟩ "October 12, 2025"
          [("Q1", "  "), ("Q2", "I loved summers at the lake.")]) "Q1"
      = false := by
  refine ⟨?_, generate_blog_eq env dateStr answers, rfl, ?_, ?_, by decide, by decide⟩
  · rw [tocItems, filterMap_guard, answeredPrompts, List.map_map]
    rfl
  · exact hnd.sublist ((List.filter_sublist answers).map Prod.fst)
  · intro hmem
    rcases List.mem_map.mp hmem with ⟨qa, hqf, hfst⟩
    rcases List.mem_filter.mp hqf with ⟨hqa2, hp⟩
    have : qa = (q, qa.2) := by
      rw [← hfst]
    have hmem2 : (q, qa.2) ∈ answers := this ▸ hqa2
    have hval : a = qa.2 := key_unique hnd hqa hmem2
    rw [← hval] at hp
    simp [hws] at hp

/-- C1 witness: the concrete scenario record satisfies the hypotheses. -/
theorem generate_blog_toc_sections_witness :
    ([("Q1", "  "), ("Q2", "I loved summers at the lake.")].map
        (Prod.fst (α := String) (β := String))).Nodup
    ∧ ("Q1", "  ") ∈ [("Q1", "  "), ("Q2", "I loved summers at the lake.")]
    ∧ pyStrip "  " = ""
    ∧ strContainsSub
        (generate_blog ⟨false, fun _ => Except.error ""⟩ "October 12, 2025"
          [("Q1", "  "), ("Q2", "I loved summers at the lake.")]) "Q1"
      = false :=
  ⟨by decide, by decide, by decide,
   (generate_blog_toc_sections ⟨false, fun _ => Except.error ""⟩
      "October 12, 2025" [("Q1", "  "), ("Q2", "I loved summers at the lake.")]
      "Q1" "  " (by decide) (by decide) (by decide)).2.2.2.2.2.2⟩

/-- C2: if the primary renderer raises any exception, `export_pdf` catches
it and writes the fallback PDF, holding the HTML source as plain text
lines, at directory/filename, and returns exactly that path. -/
theorem export_pdf_fallback_writes (env : RenderEnv) (t1 t2 : DateTime)
    (html directory : String) (st : ExportState) (e : String)
    (hfail : env.render html = Except.error e) :
    (export_pdf env t1 t2 html directory st).1
      = directory ++ "/" ++ ("memory_blog_" ++ strftimeYmdHM t1 ++ ".pdf")
    ∧ getFile (export_pdf env t1 t2 html directory st).2.pdfFiles
        ((export_pdf env t1 t2 html directory st).1)
      = some (PdfFile.fallback (splitlines html)) := by
  constructor
  · rfl
  · simp only [export_pdf, hfail]
    exact getFile_setFile ..

/-- C2 witness: a renderer that always raises. -/
theorem export_pdf_fallback_writes_witness :
    (export_pdf ⟨fun _ => Except.error "broken"⟩ ⟨2025, 10, 12, 12, 0, 5, 0⟩
        ⟨2025, 10, 12, 12, 0, 6, 0⟩ "<p>x</p>\n<p>y</p>" "pdf"
        ⟨[], LogFileState.absent⟩).1
      = "pdf" ++ "/" ++ ("memory_blog_"
          ++ strftimeYmdHM ⟨2025, 10, 12, 12, 0, 5, 0⟩ ++ ".pdf")
    ∧ getFile (export_pdf ⟨fun _ => Except.error "broken"⟩
          ⟨2025, 10, 12, 12, 0, 5, 0⟩ ⟨2025, 10, 12, 12, 0, 6, 0⟩
          "<p>x</p>\n<p>y</p>" "pdf" ⟨[], LogFileState.absent⟩).2.pdfFiles
        ((export_pdf ⟨fun _ => Except.error "broken"⟩
          ⟨2025, 10, 12, 12, 0, 5, 0⟩ ⟨2025, 10, 12, 12, 0, 6, 0⟩
          "<p>x</p>\n<p>y</p>" "pdf" ⟨[], LogFileState.absent⟩).1)
      = some (PdfFile.fallback (splitlines "<p>x</p>\n<p>y</p>")) :=
  export_pdf_fallback_writes ⟨fun _ => Except.error "broken"⟩
    ⟨2025, 10, 12, 12, 0, 5, 0⟩ ⟨2025, 10, 12, 12, 0, 6, 0⟩
    "<p>x</p>\n<p>y</p>" "pdf" ⟨[], LogFileState.absent⟩ "broken" rfl

/-- C7 counterexample: two exports in the same minute, starting from an
absent log, append two entries bearing the same filename, so entry
filenames are not unique. -/
theorem export_same_minute_duplicate :
    ((logEntries (exportRun "pdf"
        [⟨⟨fun _ => Except.error "down"⟩, ⟨2025, 10, 12, 12, 0, 5, 0⟩,
          ⟨2025, 10, 12, 12, 0, 6, 0⟩, "<p>alpha</p>"⟩,
         ⟨⟨fun _ => Except.error "down"⟩, ⟨2025, 10, 12, 12, 0, 35, 0⟩,
          ⟨2025, 10, 12, 12, 0, 36, 0⟩, "<p>beta</p>"⟩]
        ⟨[], LogFileState.absent⟩).logFile).map LogEntry.filename)
      = ["memory_blog_20251012_1200.pdf", "memory_blog_20251012_1200.pdf"]
    ∧ (["memory_blog_20251012_1200.pdf",
        "memory_blog_20251012_1200.pdf"] : List String).Nodup = False :=
  ⟨by decide, eq_false (by decide)⟩

/-- C7 amended: after N successful exports starting from an empty or
absent log, the log holds exactly the N entries in call order, every run
over a prefix of the calls yields a prefix of the final log (append-only),
and, when the minute timestamps of the calls are pairwise distinct, the
entry filenames are unique. -/
theorem exportRun_log_append (directory : String) (calls : List ExportCall)
    (st0 : ExportState) (n : Nat)
    (h0 : logEntries st0.logFile = [])
    (hts : (calls.map fun c => strftimeYmdHM c.t1).Nodup) :
    logEntries (exportRun directory calls st0).logFile = calls.map exportEntry
    ∧ (logEntries (exportRun directory calls st0).logFile).length = calls.length
    ∧ logEntries (exportRun directory (calls.take n) st0).logFile
        <+: logEntries (exportRun directory calls st0).logFile
    ∧ ((logEntries (exportRun directory calls st0).logFile).map
         LogEntry.filename).Nodup := by
  have hfull := exportRun_logEntries_eq directory calls st0
  rw [h0] at hfull
  simp only [List.nil_append] at hfull
  refine ⟨hfull, by rw [hfull]; exact List.length_map .., ?_, ?_⟩
  · have htake := exportRun_logEntries_eq directory (calls.take n) st0
    rw [h0] at htake
    simp only [List.nil_append] at htake
    rw [htake, hfull, List.map_take]
    exact List.take_prefix n (calls.map exportEntry)
  · rw [hfull, List.map_map]
    have hcomp : (LogEntry.filename ∘ exportEntry)
        = (fun ts => "memory_blog_" ++ ts ++ ".pdf")
          ∘ (fun c : ExportCall => strftimeYmdHM c.t1) := rfl
    rw [hcomp, ← List.map_map]
    exact hts.map fun x y hxy => filename_inj hxy

/-- C7 amended witness: a two-call run with distinct minute timestamps. -/
theorem exportRun_log_append_witness :
    logEntries (exportRun "pdf" demoCalls ⟨[], LogFileState.absent⟩).logFile
      = demoCalls.map exportEntry
    ∧ (logEntries (exportRun "pdf" demoCalls
        ⟨[], LogFileState.absent⟩).logFile).length = demoCalls.length
    ∧ logEntries (exportRun "pdf" (demoCalls.take 1)
        ⟨[], LogFileState.absent⟩).logFile
        <+: logEntries (exportRun "pdf" demoCalls
              ⟨[], LogFileState.absent⟩).logFile
    ∧ ((logEntries (exportRun "pdf" demoCalls
         ⟨[], LogFileState.absent⟩).logFile).map LogEntry.filename).Nodup :=
  exportRun_log_append "pdf" demoCalls ⟨[], LogFileState.absent⟩ 1 rfl
    (by decide)

/-- C8: a log file that exists but is not valid JSON is treated as empty
rather than aborting: the export still returns its path, a PDF file is
present at that path, and the rewritten log holds exactly the one new
entry. -/
theorem export_pdf_corrupt_log_reset (env : RenderEnv) (t1 t2 : DateTime)
    (html directory : String) (files : List (String × PdfFile)) :
    (export_pdf env t1 t2 html directory ⟨files, LogFileState.corrupt⟩).2.logFile
      = LogFileState.valid [⟨"memory_blog_" ++ strftimeYmdHM t1 ++ ".pdf",
          isoformat t2, pySlice50 (joinStrings (splitlines html))⟩]
    ∧ (export_pdf env t1 t2 html directory ⟨files, LogFileState.corrupt⟩).1
      = directory ++ "/" ++ ("memory_blog_" ++ strftimeYmdHM t1 ++ ".pdf")
    ∧ (getFile (export_pdf env t1 t2 html directory
          ⟨files, LogFileState.corrupt⟩).2.pdfFiles
        ((export_pdf env t1 t2 html directory
          ⟨files, LogFileState.corrupt⟩).1)).isSome = true := by
  refine ⟨?_, rfl, ?_⟩
  · rw [export_pdf_logFile]
    rfl
  · cases hr : env.render html <;> simp [export_pdf, hr, getFile_setFile]

/-- C9: the entry appended by `export_pdf` always has filename
memory_blog_YYYYMMDD_HHMM.pdf built from the first clock read, generated_at
the ISO-8601 `isoformat` of the second clock read, and preview the first 50
characters of the document text flattened by removing line breaks; it is
appended after all existing entries. -/
theorem export_pdf_entry_fields (env : RenderEnv) (t1 t2 : DateTime)
    (html directory : String) (st : ExportState) :
    (export_pdf env t1 t2 html directory st).2.logFile
      = LogFileState.valid (logEntries st.logFile
          ++ [⟨"memory_blog_" ++ strftimeYmdHM t1 ++ ".pdf", isoformat t2,
               pySlice50 (joinStrings (splitlines html))⟩])
    ∧ (pySlice50 (joinStrings (splitlines html))).data.length ≤ 50 := by
  refine ⟨export_pdf_logFile env t1 t2 html directory st, ?_⟩
  show (List.take 50 (joinStrings (splitlines html)).data).length ≤ 50
  exact List.length_take_le ..
